import Mathlib

/-
Formalisation of the version-tolerant invocation and asynchronous-completion
layer of qa/rapi-workload.py (Shark-Linux/ganeti):
a shallow embedding of MockMethod, InvokerCreator, GanetiRapiClientWrapper,
Finish, TestTags, RemoveAllInstances and the argv handling of Main, together
with theorems settling the frozen claims about them.
-/

/-- Python values relevant to this script: the RAPI client returns None,
booleans, integers, strings, lists and string-keyed dicts (JSON-shaped data). -/
inductive Value where
  | none
  | bool (b : Bool)
  | int (n : Int)
  | str (s : String)
  | list (xs : List Value)
  | dict (xs : List (String × Value))

/-- Python exception classes appearing in the modelled code paths. -/
inductive PyErr where
  | typeError
  | valueError
  | keyError
  | indexError
  | attributeError
  | assertionError
deriving DecidableEq

/-- A print event of the script.  The script logs with raw print statements;
each constructor records one print site with its dynamic data. -/
inductive LogEvent where
  | usingMethod (name : String)
  | rapiError (name : String) (msg : String)
  | missingMethod (name : String)
  | nonJobValue (v : Value)
  | opFailure (payload : Value)

/-- One invocation that went through the client wrapper: the operation name and
the positional and keyword arguments it was invoked with. -/
structure CallRecord where
  name : String
  args : List Value
  kwargs : List (String × Value)

/-- Python whitespace characters stripped by int() before parsing a string. -/
def isPySpace (c : Char) : Bool :=
  c.toNat = 32 || c.toNat = 9 || c.toNat = 10 || c.toNat = 13 ||
  c.toNat = 11 || c.toNat = 12

/-- Decimal digit test (ASCII 48-57). -/
def isDigitChar (c : Char) : Bool :=
  48 ≤ c.toNat && c.toNat ≤ 57

/-- Strip leading and trailing Python whitespace from a character list. -/
def trimChars (cs : List Char) : List Char :=
  ((cs.dropWhile isPySpace).reverse.dropWhile isPySpace).reverse

/-- Value of a list of decimal digits, most significant first. -/
def digitsVal (cs : List Char) : Nat :=
  cs.foldl (fun acc c => acc * 10 + (c.toNat - 48)) 0

/-- Every character is a decimal digit. -/
def allDigits (cs : List Char) : Bool :=
  cs.all isDigitChar

/-- Parse an already-trimmed character list the way Python int() parses the
body of a string: an optional sign followed by a nonempty run of digits. -/
def pyParseIntList (cs : List Char) : Option Int :=
  match cs with
  | [] => Option.none
  | c :: rest =>
    if c = '+' then
      if rest.isEmpty then Option.none
      else if allDigits rest then Option.some (Int.ofNat (digitsVal rest))
      else Option.none
    else if c = '-' then
      if rest.isEmpty then Option.none
      else if allDigits rest then Option.some (-(Int.ofNat (digitsVal rest)))
      else Option.none
    else if allDigits (c :: rest) then Option.some (Int.ofNat (digitsVal (c :: rest)))
    else Option.none

/-- Python int(x) on the modelled values: succeeds on integers, booleans and
integer-parsable strings; raises ValueError on other strings and TypeError on
None, lists and dicts.  This is the check on line 139 of rapi-workload.py. -/
def pyInt : Value → Except PyErr Int
  | .int n => .ok n
  | .bool b => .ok (if b then 1 else 0)
  | .str s =>
    match pyParseIntList (trimChars s.data) with
    | Option.some n => .ok n
    | Option.none => .error .valueError
  | .none => .error .typeError
  | .list _ => .error .typeError
  | .dict _ => .error .typeError

/-- Test for the None value (used where the code compares against None). -/
def Value.isNone : Value → Bool
  | .none => true
  | _ => false

/-- Lookup in a string-keyed association list (the dict model). -/
def lookupStr : List (String × Value) → String → Option Value
  | [], _ => Option.none
  | (k, v) :: rest, key => if k = key then Option.some v else lookupStr rest key

/-- Python subscripting with a string key: only dicts succeed (KeyError when
the key is absent); every other value, None included, raises TypeError. -/
def pySubscriptStr : Value → String → Except PyErr Value
  | .dict xs, key =>
    match lookupStr xs key with
    | Option.some v => .ok v
    | Option.none => .error .keyError
  | _, _ => .error .typeError

/-- Python subscripting with a nonnegative integer index. -/
def pySubscriptNat : Value → Nat → Except PyErr Value
  | .list xs, i =>
    match xs.get? i with
    | Option.some v => .ok v
    | Option.none => .error .indexError
  | .str s, i =>
    match s.data.get? i with
    | Option.some ch => .ok (.str (String.mk [ch]))
    | Option.none => .error .indexError
  | .dict _, _ => .error .keyError
  | _, _ => .error .typeError

/-- Python truthiness of the modelled values. -/
def pyTruthy : Value → Bool
  | .none => false
  | .bool b => b
  | .int n => n ≠ 0
  | .str s => s ≠ ""
  | .list xs => !xs.isEmpty
  | .dict xs => !xs.isEmpty

/-- Python len(), raising TypeError on unsized values. -/
def pyLen : Value → Except PyErr Nat
  | .list xs => .ok xs.length
  | .str s => .ok s.data.length
  | .dict xs => .ok xs.length
  | _ => .error .typeError

/-- Python iteration over a value, as in a for loop; raises TypeError on
non-iterable values (None included). -/
def pyIter : Value → Except PyErr (List Value)
  | .list xs => .ok xs
  | .str s => .ok (s.data.map (fun ch => Value.str (String.mk [ch])))
  | .dict xs => .ok (xs.map (fun p => Value.str p.1))
  | _ => .error .typeError

/-- The outcome of one underlying client method call: a returned value, or a
raised GanetiApiError carrying its message. -/
inductive MethodOutcome where
  | ok (v : Value)
  | apiError (msg : String)

/-- An underlying client method: a state transformer over the external cluster
state, taking positional and keyword arguments. -/
def MethodFn (σ : Type) :=
  σ → List Value → List (String × Value) → MethodOutcome × σ

/-- The underlying GanetiRapiClient of some version: the set of operations it
actually exposes, each with its behaviour against cluster state σ. -/
structure RawClient (σ : Type) where
  methods : List (String × MethodFn σ)

/-- Attribute lookup on the underlying client (its getattr): the first method
registered under the name, None when the client does not expose it. -/
def findMethod {σ : Type} : List (String × MethodFn σ) → String → Option (MethodFn σ)
  | [], _ => Option.none
  | (n, f) :: rest, attr => if n = attr then Option.some f else findMethod rest attr

/-- True when the attribute name begins with an underscore (the wrapper's
private-name convention, line 117 of rapi-workload.py). -/
def startsWithUnderscore (attr : String) : Bool :=
  match attr.data with
  | [] => false
  | c :: _ => c = '_'

/-- What GanetiRapiClientWrapper.getattr hands back for a name:
a wrapper-internal attribute (names starting with an underscore, resolved
against the wrapper object itself and outside the forwarding model), a
decorated invoker around an existing client method (InvokerCreator), or the
argument-absorbing MockMethod when the client lacks the operation. -/
inductive GetattrOutcome (σ : Type) where
  | internal
  | invoker (name : String) (fn : MethodFn σ)
  | mock

/-- GanetiRapiClientWrapper.getattr, lines 113-122 of rapi-workload.py:
underscore names resolve against the wrapper itself; otherwise the underlying
client is probed, and a missing operation is logged and replaced by
MockMethod. -/
def wrapperGetattr {σ : Type} (c : RawClient σ) (attr : String) :
    GetattrOutcome σ × List LogEvent :=
  if startsWithUnderscore attr then (.internal, [])
  else
    match findMethod c.methods attr with
    | Option.some fn => (.invoker attr fn, [])
    | Option.none => (.mock, [.missingMethod attr])

/-- The result of calling a proxied operation: the value produced (or the
exception that escaped), the cluster state afterwards, and the prints made. -/
structure PCallOut (σ : Type) where
  value : Except PyErr Value
  state : σ
  log : List LogEvent

/-- Fetch attr from the wrapper and call it with the given arguments.
An invoker (InvokerCreator's decoratedFn, lines 71-94) prints the operation
name, forwards the call, and converts a GanetiApiError into a logged event and
a None result; MockMethod absorbs the arguments and returns None.  The
wrapper-internal branch is modelled as a raised AttributeError, since no
modelled code path calls an underscore attribute. -/
def proxyCall {σ : Type} (c : RawClient σ) (s : σ) (attr : String)
    (args : List Value) (kwargs : List (String × Value)) : PCallOut σ :=
  match wrapperGetattr c attr with
  | (.internal, lg) => ⟨.error .attributeError, s, lg⟩
  | (.mock, lg) => ⟨.ok Value.none, s, lg⟩
  | (.invoker name fn, lg) =>
    match fn s args kwargs with
    | (.ok v, s1) => ⟨.ok v, s1, lg ++ [.usingMethod name]⟩
    | (.apiError msg, s1) => ⟨.ok Value.none, s1, lg ++ [.usingMethod name, .rapiError name msg]⟩

/-- Extraction performed by line 150 of rapi-workload.py:
GetJobStatus(...)["opresult"][0]. -/
def extractFirstOpresult (st : Value) : Except PyErr Value :=
  match pySubscriptStr st "opresult" with
  | .error e => .error e
  | .ok o => pySubscriptNat o 0

/-- Everything observable about one run of Finish: the value the invoked
operation returned, the parsed job id when one was recognised, the values the
wait and status primitives returned when invoked, the overall result (or the
exception that escaped), the final cluster state, the prints, the full list of
proxied invocations in order, and how many times Finish itself invoked
WaitForJobCompletion and GetJobStatus. -/
structure FinishOut (σ : Type) where
  fnValue : Except PyErr Value
  jobId : Option Int
  waitValue : Option Value
  statusValue : Option Value
  result : Except PyErr Value
  state : σ
  log : List LogEvent
  calls : List CallRecord
  waitCalls : Nat
  statusCalls : Nat

/-- Finish (lines 125-156 of rapi-workload.py): invoke the operation once;
try int() on the returned value; on ValueError/TypeError return the value
unchanged (logging it when it is not None); otherwise pass the raw returned
value to WaitForJobCompletion and GetJobStatus, extract
status["opresult"][0], and return it on success or log it and return None on
failure. -/
def Finish {σ : Type} (c : RawClient σ) (s : σ) (fnName : String)
    (args : List Value) (kwargs : List (String × Value)) : FinishOut σ :=
  match proxyCall c s fnName args kwargs with
  | ⟨.error e, s1, lg1⟩ =>
    { fnValue := .error e, jobId := Option.none, waitValue := Option.none,
      statusValue := Option.none, result := .error e, state := s1, log := lg1,
      calls := [⟨fnName, args, kwargs⟩], waitCalls := 0, statusCalls := 0 }
  | ⟨.ok v, s1, lg1⟩ =>
    match pyInt v with
    | .error _ =>
      { fnValue := .ok v, jobId := Option.none, waitValue := Option.none,
        statusValue := Option.none, result := .ok v, state := s1,
        log := lg1 ++ (if v.isNone then [] else [.nonJobValue v]),
        calls := [⟨fnName, args, kwargs⟩], waitCalls := 0, statusCalls := 0 }
    | .ok j =>
      match proxyCall c s1 "WaitForJobCompletion" [v] [] with
      | ⟨.error e, s2, lg2⟩ =>
        { fnValue := .ok v, jobId := Option.some j, waitValue := Option.none,
          statusValue := Option.none, result := .error e, state := s2,
          log := lg1 ++ lg2,
          calls := [⟨fnName, args, kwargs⟩, ⟨"WaitForJobCompletion", [v], []⟩],
          waitCalls := 1, statusCalls := 0 }
      | ⟨.ok w, s2, lg2⟩ =>
        match proxyCall c s2 "GetJobStatus" [v] [] with
        | ⟨.error e, s3, lg3⟩ =>
          { fnValue := .ok v, jobId := Option.some j, waitValue := Option.some w,
            statusValue := Option.none, result := .error e, state := s3,
            log := lg1 ++ lg2 ++ lg3,
            calls := [⟨fnName, args, kwargs⟩, ⟨"WaitForJobCompletion", [v], []⟩,
                      ⟨"GetJobStatus", [v], []⟩],
            waitCalls := 1, statusCalls := 1 }
        | ⟨.ok st, s3, lg3⟩ =>
          { fnValue := .ok v, jobId := Option.some j, waitValue := Option.some w,
            statusValue := Option.some st,
            result :=
              match extractFirstOpresult st with
              | .error e => .error e
              | .ok payload => if pyTruthy w then .ok payload else .ok Value.none,
            state := s3,
            log := lg1 ++ lg2 ++ lg3 ++
              (match extractFirstOpresult st with
               | .error _ => []
               | .ok payload => if pyTruthy w then [] else [.opFailure payload]),
            calls := [⟨fnName, args, kwargs⟩, ⟨"WaitForJobCompletion", [v], []⟩,
                      ⟨"GetJobStatus", [v], []⟩],
            waitCalls := 1, statusCalls := 1 }

/-- A client whose CreateInstance hands back the job id as the string "42",
whose wait primitive reports success, and whose job status carries the
opresult payload "created-ok" (the end-to-end scenario of the spec). -/
def client42 : RawClient Unit :=
  ⟨[("CreateInstance", fun s _ _ => (.ok (.str "42"), s)),
    ("WaitForJobCompletion", fun s _ _ => (.ok (.bool true), s)),
    ("GetJobStatus", fun s _ _ =>
      (.ok (.dict [("opresult", .list [.str "created-ok"])]), s))]⟩

/-- A digit-only nonempty string: the string encoding of job ids named by the
spec ("a string containing only digits"). -/
def isDigitOnly (s : String) : Bool :=
  !s.data.isEmpty && allDigits s.data

/-- The class of raw return values the spec calls interpretable as an integer:
a native integer, or a string containing only digits. -/
def IntLike (v : Value) : Prop :=
  (∃ n, v = Value.int n) ∨ (∃ s, v = Value.str s ∧ isDigitOnly s = true)

/-- Number of proxied invocations of the given operation name in a trace. -/
def countCalls (tr : List CallRecord) (name : String) : Nat :=
  (tr.filter (fun r => r.name == name)).length

/-- The fixed tag vocabulary of TestTags (line 178 of rapi-workload.py). -/
def tagsValue : Value :=
  .list [.str "tag1", .str "tag2", .str "tag3"]

/-- tags[:1] as used by the delete steps of TestTags. -/
def tagsFirst : Value :=
  .list [.str "tag1"]

/-- tags[1:] as used by the last delete step of TestTags. -/
def tagsRest : Value :=
  .list [.str "tag2", .str "tag3"]

/-- Observable outcome of a scenario function: final cluster state, prints,
and the ordered trace of proxied invocations. -/
structure ScenOut (σ : Type) where
  state : σ
  log : List LogEvent
  calls : List CallRecord

/-- TestTags (lines 159-190 of rapi-workload.py), over the operation names of
the get, add and delete tag operations of one taggable entity: read the tags,
add all three tags dry-run then for real through Finish, read, delete the
first tag dry-run then for real through Finish, read, delete the remaining
two tags through Finish, read. -/
def TestTags {σ : Type} (c : RawClient σ) (s : σ)
    (getName addName delName : String) (args : List Value) : ScenOut σ :=
  let g1 := proxyCall c s getName args []
  let f1 := Finish c g1.state addName args [("tags", tagsValue), ("dry_run", .bool true)]
  let f2 := Finish c f1.state addName args [("tags", tagsValue)]
  let g2 := proxyCall c f2.state getName args []
  let f3 := Finish c g2.state delName args [("tags", tagsFirst), ("dry_run", .bool true)]
  let f4 := Finish c f3.state delName args [("tags", tagsFirst)]
  let g3 := proxyCall c f4.state getName args []
  let f5 := Finish c g3.state delName args [("tags", tagsRest)]
  let g4 := proxyCall c f5.state getName args []
  { state := g4.state,
    log := g1.log ++ f1.log ++ f2.log ++ g2.log ++ f3.log ++ f4.log ++
      g3.log ++ f5.log ++ g4.log,
    calls := [(⟨getName, args, []⟩ : CallRecord)] ++ f1.calls ++ f2.calls ++
      [(⟨getName, args, []⟩ : CallRecord)] ++ f3.calls ++ f4.calls ++
      [(⟨getName, args, []⟩ : CallRecord)] ++ f5.calls ++
      [(⟨getName, args, []⟩ : CallRecord)] }

/-- Outcome of the deletion loop of RemoveAllInstances: the cluster state,
the error that escaped (when a Finish call raised), prints and trace. -/
structure LoopOut (σ : Type) where
  state : σ
  err : Option PyErr
  log : List LogEvent
  calls : List CallRecord

/-- The loop of RemoveAllInstances (lines 224-226): one Finish-mediated
DeleteInstance call per enumerated instance; an escaped exception aborts. -/
def deleteLoop {σ : Type} (c : RawClient σ) : σ → List Value → LoopOut σ
  | s, [] => ⟨s, Option.none, [], []⟩
  | s, inst :: rest =>
    let F := Finish c s "DeleteInstance" [inst] []
    match F.result with
    | .error e => ⟨F.state, Option.some e, F.log, F.calls⟩
    | .ok _ =>
      let out := deleteLoop c F.state rest
      ⟨out.state, out.err, F.log ++ out.log, F.calls ++ out.calls⟩

/-- Observable outcome of RemoveAllInstances: ok when the final assertion
passed, the error otherwise; final cluster state; and the value the second
GetInstances enumeration returned, when reached. -/
structure RAIOut (σ : Type) where
  result : Except PyErr Unit
  state : σ
  finalList : Option Value

/-- RemoveAllInstances (lines 217-229 of rapi-workload.py): enumerate the
instances, delete each through Finish, re-enumerate, and assert that the
enumeration is empty. -/
def RemoveAllInstances {σ : Type} (c : RawClient σ) (s : σ) : RAIOut σ :=
  match proxyCall c s "GetInstances" [] [] with
  | ⟨.error e, s1, _⟩ => ⟨.error e, s1, Option.none⟩
  | ⟨.ok v, s1, _⟩ =>
    match pyIter v with
    | .error e => ⟨.error e, s1, Option.none⟩
    | .ok insts =>
      let lo := deleteLoop c s1 insts
      match lo.err with
      | Option.some e => ⟨.error e, lo.state, Option.none⟩
      | Option.none =>
        match proxyCall c lo.state "GetInstances" [] [] with
        | ⟨.error e, s2, _⟩ => ⟨.error e, s2, Option.none⟩
        | ⟨.ok v2, s2, _⟩ =>
          match pyLen v2 with
          | .error e => ⟨.error e, s2, Option.some v2⟩
          | .ok n =>
            ⟨if n = 0 then .ok () else .error .assertionError, s2, Option.some v2⟩

/-- A single-writer cluster on which every deletion succeeds, the precondition
named by the claim about RemoveAllInstances: the state is the list of
instance names; GetInstances enumerates it, DeleteInstance removes the named
instance and hands back a job id whose wait succeeds. -/
def simpleCluster : RawClient (List String) :=
  ⟨[("GetInstances", fun s _ _ => (.ok (.list (s.map .str)), s)),
    ("DeleteInstance", fun s args _ =>
      match args with
      | [.str name] => (.ok (.int 123), s.filter (fun x => !(x == name)))
      | _ => (.apiError "bad arguments", s)),
    ("WaitForJobCompletion", fun s _ _ => (.ok (.bool true), s)),
    ("GetJobStatus", fun s _ _ =>
      (.ok (.dict [("opresult", .list [.str "deleted"])]), s))]⟩

/-- The string Usage writes to stderr (lines 375-376 of rapi-workload.py). -/
def usageMessage : String :=
  "Usage:\n\trapi-workload.py qa-config-file"

/-- Observable outcome of the argv handling of Main: what was written to
stderr, and whether execution proceeded past the sys.argv subscript (ok) or
an IndexError escaped. -/
structure MainOut where
  stderr : List String
  result : Except PyErr Unit

/-- The entry point Main up to the subscript sys.argv~1 (lines 382-385 of
rapi-workload.py): when fewer than two argv entries are present Usage is
invoked, and then sys.argv~1 is evaluated unconditionally as the argument of
the configuration load; the work past that subscript (configuration load,
node setup, workload) belongs to external collaborators and is represented by
the successful continuation. -/
def MainArgvCheck (argv : List String) : MainOut :=
  match argv.get? 1 with
  | Option.some _ => ⟨if argv.length < 2 then [usageMessage] else [], .ok ()⟩
  | Option.none => ⟨if argv.length < 2 then [usageMessage] else [], .error .indexError⟩

/-- A client exposing no operation at all. -/
def emptyClient : RawClient Unit :=
  ⟨[]⟩

/-- A client whose GetVersion returns a plain non-numeric string. -/
def clientTerm : RawClient Unit :=
  ⟨[("GetVersion", fun s _ _ => (.ok (.str "2.16.0"), s))]⟩

/-- A method that always raises a GanetiApiError. -/
def startupRaiseFn : MethodFn Unit :=
  fun s _ _ => (MethodOutcome.apiError "rejected by server", s)

/-- A client whose StartupInstance raises a GanetiApiError. -/
def clientRaise : RawClient Unit :=
  ⟨[("StartupInstance", startupRaiseFn)]⟩

/-- A client producing a job id whose GetJobStatus operation is absent, so the
wrapper substitutes MockMethod and the status fetched by Finish is None. -/
def clientNoStatus : RawClient Unit :=
  ⟨[("CreateInstance", fun s _ _ => (.ok (.str "42"), s)),
    ("WaitForJobCompletion", fun s _ _ => (.ok (.bool true), s))]⟩

/-- A client producing a job id whose wait primitive reports failure. -/
def clientFail : RawClient Unit :=
  ⟨[("CreateInstance", fun s _ _ => (.ok (.str "42"), s)),
    ("WaitForJobCompletion", fun s _ _ => (.ok (.bool false), s)),
    ("GetJobStatus", fun s _ _ =>
      (.ok (.dict [("opresult", .list [.str "boom"])]), s))]⟩

/-- A client producing a job id whose wait succeeds and whose job status
carries a two-entry opresult sequence, so the first entry is distinguishable
from the others. -/
def clientMulti : RawClient Unit :=
  ⟨[("CreateInstance", fun s _ _ => (.ok (.str "42"), s)),
    ("WaitForJobCompletion", fun s _ _ => (.ok (.bool true), s)),
    ("GetJobStatus", fun s _ _ =>
      (.ok (.dict [("opresult", .list [.str "created-ok", .str "second-op"])]), s))]⟩

lemma not_space_of_digit {c : Char} (h : isDigitChar c = true) : isPySpace c = false := by
  simp [isDigitChar] at h
  simp [isPySpace]
  omega

lemma digit_ne_plus {c : Char} (h : isDigitChar c = true) : ¬(c = '+') := by
  intro he
  rw [he] at h
  exact absurd h (by decide)

lemma digit_ne_minus {c : Char} (h : isDigitChar c = true) : ¬(c = '-') := by
  intro he
  rw [he] at h
  exact absurd h (by decide)

lemma dropWhile_space_digits {cs : List Char} (h : allDigits cs = true) :
    cs.dropWhile isPySpace = cs := by
  cases cs with
  | nil => rfl
  | cons c rest =>
    have hc : isDigitChar c = true := by
      simp [allDigits, List.all_cons] at h
      exact h.1
    simp [List.dropWhile_cons, not_space_of_digit hc]

lemma trim_digits {cs : List Char} (h : allDigits cs = true) : trimChars cs = cs := by
  have h2 : allDigits cs.reverse = true := by
    simpa [allDigits, List.all_reverse] using h
  unfold trimChars
  rw [dropWhile_space_digits h, dropWhile_space_digits h2, List.reverse_reverse]

lemma parse_digits {cs : List Char} (hne : cs ≠ []) (h : allDigits cs = true) :
    pyParseIntList cs = Option.some (Int.ofNat (digitsVal cs)) := by
  cases cs with
  | nil => exact absurd rfl hne
  | cons c rest =>
    have hc : isDigitChar c = true := by
      simp [allDigits, List.all_cons] at h
      exact h.1
    have hall : allDigits (c :: rest) = true := h
    simp [pyParseIntList, digit_ne_plus hc, digit_ne_minus hc, hall]

lemma pyInt_digitOnly {s : String} (h : isDigitOnly s = true) :
    ∃ n, pyInt (Value.str s) = .ok n := by
  simp [isDigitOnly, Bool.and_eq_true] at h
  obtain ⟨h1, h2⟩ := h
  have hne : s.data ≠ [] := by
    intro he
    rw [he] at h1
    exact absurd h1 (by decide)
  refine ⟨Int.ofNat (digitsVal s.data), ?_⟩
  simp [pyInt, trim_digits h2, parse_digits hne h2]

lemma intLike_pyInt_ok {v : Value} (h : IntLike v) : ∃ j, pyInt v = .ok j := by
  rcases h with ⟨n, rfl⟩ | ⟨s, rfl, hs⟩
  · exact ⟨n, rfl⟩
  · exact pyInt_digitOnly hs

lemma wrapperGetattr_not_internal {σ : Type} (c : RawClient σ) (attr : String)
    (h : startsWithUnderscore attr = false) :
    (∃ fn, wrapperGetattr c attr = (.invoker attr fn, [])) ∨
    wrapperGetattr c attr = (.mock, [.missingMethod attr]) := by
  unfold wrapperGetattr
  rw [h]
  cases findMethod c.methods attr <;> simp

lemma proxyCall_ok_parts {σ : Type} (c : RawClient σ) (s : σ) (attr : String)
    (args : List Value) (kwargs : List (String × Value))
    (h : startsWithUnderscore attr = false) :
    ∃ u s1 lg, proxyCall c s attr args kwargs = ⟨.ok u, s1, lg⟩ := by
  rcases wrapperGetattr_not_internal c attr h with ⟨fn, hw⟩ | hw
  · rcases hr : fn s args kwargs with ⟨out, s1⟩
    cases out with
    | ok v =>
      exact ⟨v, s1, [.usingMethod attr], by unfold proxyCall; rw [hw]; dsimp only; rw [hr]; rfl⟩
    | apiError m =>
      exact ⟨Value.none, s1, [.usingMethod attr, .rapiError attr m],
        by unfold proxyCall; rw [hw]; dsimp only; rw [hr]; rfl⟩
  · exact ⟨Value.none, s, [.missingMethod attr], by unfold proxyCall; rw [hw]⟩

lemma finish_eq_of_error {σ : Type} (c : RawClient σ) (s : σ) (fnName : String)
    (args : List Value) (kwargs : List (String × Value)) (e : PyErr) (s1 : σ)
    (lg1 : List LogEvent)
    (hp : proxyCall c s fnName args kwargs = ⟨.error e, s1, lg1⟩) :
    Finish c s fnName args kwargs =
      { fnValue := .error e, jobId := Option.none, waitValue := Option.none,
        statusValue := Option.none, result := .error e, state := s1, log := lg1,
        calls := [⟨fnName, args, kwargs⟩], waitCalls := 0, statusCalls := 0 } := by
  unfold Finish
  rw [hp]

lemma finish_eq_of_nonint {σ : Type} (c : RawClient σ) (s : σ) (fnName : String)
    (args : List Value) (kwargs : List (String × Value)) (v : Value) (s1 : σ)
    (lg1 : List LogEvent) (e : PyErr)
    (hp : proxyCall c s fnName args kwargs = ⟨.ok v, s1, lg1⟩)
    (hj : pyInt v = .error e) :
    Finish c s fnName args kwargs =
      { fnValue := .ok v, jobId := Option.none, waitValue := Option.none,
        statusValue := Option.none, result := .ok v, state := s1,
        log := lg1 ++ (if v.isNone then [] else [.nonJobValue v]),
        calls := [⟨fnName, args, kwargs⟩], waitCalls := 0, statusCalls := 0 } := by
  unfold Finish
  rw [hp]
  dsimp only
  rw [hj]

lemma finish_eq_of_jobid {σ : Type} (c : RawClient σ) (s : σ) (fnName : String)
    (args : List Value) (kwargs : List (String × Value)) (v : Value) (s1 : σ)
    (lg1 : List LogEvent) (j : Int) (w st : Value) (s2 s3 : σ)
    (lg2 lg3 : List LogEvent)
    (hp : proxyCall c s fnName args kwargs = ⟨.ok v, s1, lg1⟩)
    (hj : pyInt v = .ok j)
    (hw : proxyCall c s1 "WaitForJobCompletion" [v] [] = ⟨.ok w, s2, lg2⟩)
    (hst : proxyCall c s2 "GetJobStatus" [v] [] = ⟨.ok st, s3, lg3⟩) :
    Finish c s fnName args kwargs =
      { fnValue := .ok v, jobId := Option.some j, waitValue := Option.some w,
        statusValue := Option.some st,
        result :=
          match extractFirstOpresult st with
          | .error e => .error e
          | .ok payload => if pyTruthy w then .ok payload else .ok Value.none,
        state := s3,
        log := lg1 ++ lg2 ++ lg3 ++
          (match extractFirstOpresult st with
           | .error _ => []
           | .ok payload => if pyTruthy w then [] else [.opFailure payload]),
        calls := [⟨fnName, args, kwargs⟩, ⟨"WaitForJobCompletion", [v], []⟩,
                  ⟨"GetJobStatus", [v], []⟩],
        waitCalls := 1, statusCalls := 1 } := by
  unfold Finish
  rw [hp]
  dsimp only
  rw [hj]
  dsimp only
  rw [hw]
  dsimp only
  rw [hst]

lemma proxyCall_jobid_log {σ : Type} (c : RawClient σ) (s : σ) (attr : String)
    (args : List Value) (kwargs : List (String × Value)) (v : Value) (s1 : σ)
    (lg : List LogEvent) (j : Int)
    (hp : proxyCall c s attr args kwargs = ⟨.ok v, s1, lg⟩)
    (hj : pyInt v = .ok j) :
    lg = [.usingMethod attr] := by
  unfold proxyCall wrapperGetattr at hp
  cases hu : startsWithUnderscore attr with
  | true =>
    rw [hu] at hp
    simp at hp
  | false =>
    rw [hu] at hp
    simp only [Bool.false_eq_true, if_false] at hp
    cases hf : findMethod c.methods attr with
    | none =>
      rw [hf] at hp
      simp [PCallOut.mk.injEq] at hp
      obtain ⟨hv, _, _⟩ := hp
      rw [← hv] at hj
      simp [pyInt] at hj
    | some fn =>
      rw [hf] at hp
      dsimp only at hp
      rcases hr : fn s args kwargs with ⟨out, s2⟩
      rw [hr] at hp
      cases out with
      | ok v2 =>
        simp [PCallOut.mk.injEq] at hp
        exact hp.2.2.symm
      | apiError m =>
        simp [PCallOut.mk.injEq] at hp
        obtain ⟨hv, _, _⟩ := hp
        rw [← hv] at hj
        simp [pyInt] at hj

/-- C1: for every call whose raw return value is interpretable as an integer
(a native integer, or a string containing only digits), Finish treats that
value as a job id and invokes the job-wait primitive exactly once and the
job-status primitive exactly once (each receiving the raw returned value). -/
theorem finish_intlike_invokes_wait_status_once {σ : Type} (c : RawClient σ)
    (s : σ) (fnName : String) (args : List Value) (kwargs : List (String × Value))
    (v : Value)
    (h1 : (Finish c s fnName args kwargs).fnValue = .ok v)
    (h2 : IntLike v) :
    (Finish c s fnName args kwargs).waitCalls = 1 ∧
    (Finish c s fnName args kwargs).statusCalls = 1 ∧
    (Finish c s fnName args kwargs).calls =
      [⟨fnName, args, kwargs⟩, ⟨"WaitForJobCompletion", [v], []⟩,
       ⟨"GetJobStatus", [v], []⟩] := by
  obtain ⟨j0, hj0⟩ := intLike_pyInt_ok h2
  rcases hp : proxyCall c s fnName args kwargs with ⟨val, s1, lg1⟩
  cases val with
  | error e =>
    rw [finish_eq_of_error c s fnName args kwargs e s1 lg1 hp] at h1
    simp at h1
  | ok v1 =>
    cases hq : pyInt v1 with
    | error e1 =>
      rw [finish_eq_of_nonint c s fnName args kwargs v1 s1 lg1 e1 hp hq] at h1
      dsimp only at h1
      injection h1 with h1
      subst h1
      rw [hq] at hj0
      simp at hj0
    | ok j =>
      obtain ⟨w, s2, lg2, hw⟩ :=
        proxyCall_ok_parts c s1 "WaitForJobCompletion" [v1] [] (by decide)
      obtain ⟨st, s3, lg3, hst⟩ :=
        proxyCall_ok_parts c s2 "GetJobStatus" [v1] [] (by decide)
      have hF := finish_eq_of_jobid c s fnName args kwargs v1 s1 lg1 j w st s2 s3
        lg2 lg3 hp hq hw hst
      rw [hF] at h1 ⊢
      dsimp only at h1 ⊢
      injection h1 with h1
      subst h1
      exact ⟨rfl, rfl, rfl⟩

/-- Witness for C1: the concrete client whose CreateInstance returns the digit
string "42"; Finish invokes the wait and status primitives exactly once each,
passing the raw string along. -/
theorem finish_intlike_invokes_wait_status_once_witness :
    (Finish client42 () "CreateInstance" [] []).fnValue = .ok (.str "42") ∧
    IntLike (.str "42") ∧
    ((Finish client42 () "CreateInstance" [] []).waitCalls = 1 ∧
     (Finish client42 () "CreateInstance" [] []).statusCalls = 1 ∧
     (Finish client42 () "CreateInstance" [] []).calls =
       [⟨"CreateInstance", [], []⟩, ⟨"WaitForJobCompletion", [.str "42"], []⟩,
        ⟨"GetJobStatus", [.str "42"], []⟩]) :=
  ⟨rfl, Or.inr ⟨"42", rfl, by decide⟩,
   finish_intlike_invokes_wait_status_once client42 () "CreateInstance" [] []
     (.str "42") rfl (Or.inr ⟨"42", rfl, by decide⟩)⟩

/-- C2: for every call whose raw return value does not parse as an integer,
Finish returns that value unchanged and invokes neither the job-wait
primitive nor the job-status primitive. -/
theorem finish_nonint_returns_unchanged {σ : Type} (c : RawClient σ) (s : σ)
    (fnName : String) (args : List Value) (kwargs : List (String × Value))
    (v : Value) (e : PyErr)
    (h1 : (Finish c s fnName args kwargs).fnValue = .ok v)
    (h2 : pyInt v = .error e) :
    (Finish c s fnName args kwargs).result = .ok v ∧
    (Finish c s fnName args kwargs).waitCalls = 0 ∧
    (Finish c s fnName args kwargs).statusCalls = 0 ∧
    (Finish c s fnName args kwargs).calls = [⟨fnName, args, kwargs⟩] := by
  rcases hp : proxyCall c s fnName args kwargs with ⟨val, s1, lg1⟩
  cases val with
  | error e1 =>
    rw [finish_eq_of_error c s fnName args kwargs e1 s1 lg1 hp] at h1
    simp at h1
  | ok v1 =>
    cases hq : pyInt v1 with
    | error e1 =>
      have hF := finish_eq_of_nonint c s fnName args kwargs v1 s1 lg1 e1 hp hq
      rw [hF] at h1 ⊢
      dsimp only at h1 ⊢
      injection h1 with h1
      subst h1
      exact ⟨rfl, rfl, rfl, rfl⟩
    | ok j =>
      obtain ⟨w, s2, lg2, hw⟩ :=
        proxyCall_ok_parts c s1 "WaitForJobCompletion" [v1] [] (by decide)
      obtain ⟨st, s3, lg3, hst⟩ :=
        proxyCall_ok_parts c s2 "GetJobStatus" [v1] [] (by decide)
      have hF := finish_eq_of_jobid c s fnName args kwargs v1 s1 lg1 j w st s2 s3
        lg2 lg3 hp hq hw hst
      rw [hF] at h1
      dsimp only at h1
      injection h1 with h1
      subst h1
      rw [h2] at hq
      simp at hq

/-- Witness for C2: a client whose GetVersion returns the non-numeric string
"2.16.0"; Finish returns it unchanged and makes no wait or status call. -/
theorem finish_nonint_returns_unchanged_witness :
    (Finish clientTerm () "GetVersion" [] []).fnValue = .ok (.str "2.16.0") ∧
    pyInt (.str "2.16.0") = .error .valueError ∧
    ((Finish clientTerm () "GetVersion" [] []).result = .ok (.str "2.16.0") ∧
     (Finish clientTerm () "GetVersion" [] []).waitCalls = 0 ∧
     (Finish clientTerm () "GetVersion" [] []).statusCalls = 0 ∧
     (Finish clientTerm () "GetVersion" [] []).calls = [⟨"GetVersion", [], []⟩]) :=
  ⟨rfl, rfl,
   finish_nonint_returns_unchanged clientTerm () "GetVersion" [] []
     (.str "2.16.0") .valueError rfl rfl⟩

/-- C6: whenever the invoked operation returned a job id, the wait primitive
reported success (a truthy value) and the job status's opresult sequence
starts with payload p, Finish returns p — the first entry of the sequence
(for example "created-ok" when CreateInstance returned the digit string "42"
and the status payload was a dict whose opresult list starts with it). -/
theorem finish_wait_success_returns_first_opresult {σ : Type} (c : RawClient σ)
    (s : σ) (fnName : String) (args : List Value) (kwargs : List (String × Value))
    (w st p : Value) (rest : List Value)
    (h1 : (Finish c s fnName args kwargs).waitValue = Option.some w)
    (h2 : pyTruthy w = true)
    (h3 : (Finish c s fnName args kwargs).statusValue = Option.some st)
    (h4 : pySubscriptStr st "opresult" = .ok (Value.list (p :: rest))) :
    (Finish c s fnName args kwargs).result = .ok p := by
  have hE : extractFirstOpresult st = .ok p := by
    unfold extractFirstOpresult
    rw [h4]
    rfl
  rcases hp : proxyCall c s fnName args kwargs with ⟨val, s1, lg1⟩
  cases val with
  | error e =>
    rw [finish_eq_of_error c s fnName args kwargs e s1 lg1 hp] at h1
    simp at h1
  | ok v1 =>
    cases hq : pyInt v1 with
    | error e1 =>
      rw [finish_eq_of_nonint c s fnName args kwargs v1 s1 lg1 e1 hp hq] at h1
      simp at h1
    | ok j =>
      obtain ⟨w1, s2, lg2, hw⟩ :=
        proxyCall_ok_parts c s1 "WaitForJobCompletion" [v1] [] (by decide)
      obtain ⟨st1, s3, lg3, hst⟩ :=
        proxyCall_ok_parts c s2 "GetJobStatus" [v1] [] (by decide)
      have hF := finish_eq_of_jobid c s fnName args kwargs v1 s1 lg1 j w1 st1 s2 s3
        lg2 lg3 hp hq hw hst
      rw [hF] at h1 h3 ⊢
      dsimp only at h1 h3 ⊢
      injection h1 with h1
      subst h1
      injection h3 with h3
      subst h3
      rw [hE]
      simp [h2]

/-- Witness for C6: a client whose CreateInstance returns "42", whose wait
succeeds, and whose status carries the opresult sequence with "created-ok"
first and "second-op" second; Finish returns the first entry. -/
theorem finish_wait_success_returns_first_opresult_witness :
    (Finish clientMulti () "CreateInstance" [] []).waitValue = Option.some (.bool true) ∧
    pyTruthy (.bool true) = true ∧
    (Finish clientMulti () "CreateInstance" [] []).statusValue =
      Option.some (.dict [("opresult", .list [.str "created-ok", .str "second-op"])]) ∧
    pySubscriptStr (.dict [("opresult", .list [.str "created-ok", .str "second-op"])])
        "opresult" = .ok (Value.list (.str "created-ok" :: [.str "second-op"])) ∧
    (Finish clientMulti () "CreateInstance" [] []).result = .ok (.str "created-ok") :=
  ⟨rfl, rfl, rfl, rfl,
   finish_wait_success_returns_first_opresult clientMulti () "CreateInstance" [] []
     (.bool true) (.dict [("opresult", .list [.str "created-ok", .str "second-op"])])
     (.str "created-ok") [.str "second-op"] rfl rfl rfl rfl⟩

/-- C7: when the invoked operation returned a job id and the wait primitive
reported failure (a falsy success value), Finish returns None and no
exception escapes, and its log carries both the operation name (printed by
the proxy when the operation was invoked) and the first opresult payload
(printed by the failure branch). -/
theorem finish_wait_failure_returns_none {σ : Type} (c : RawClient σ) (s : σ)
    (fnName : String) (args : List Value) (kwargs : List (String × Value))
    (w st p : Value)
    (h1 : (Finish c s fnName args kwargs).waitValue = Option.some w)
    (h2 : pyTruthy w = false)
    (h3 : (Finish c s fnName args kwargs).statusValue = Option.some st)
    (h4 : extractFirstOpresult st = .ok p) :
    (Finish c s fnName args kwargs).result = .ok Value.none ∧
    LogEvent.opFailure p ∈ (Finish c s fnName args kwargs).log ∧
    LogEvent.usingMethod fnName ∈ (Finish c s fnName args kwargs).log := by
  rcases hp : proxyCall c s fnName args kwargs with ⟨val, s1, lg1⟩
  cases val with
  | error e =>
    rw [finish_eq_of_error c s fnName args kwargs e s1 lg1 hp] at h1
    simp at h1
  | ok v1 =>
    cases hq : pyInt v1 with
    | error e1 =>
      rw [finish_eq_of_nonint c s fnName args kwargs v1 s1 lg1 e1 hp hq] at h1
      simp at h1
    | ok j =>
      obtain ⟨w1, s2, lg2, hw⟩ :=
        proxyCall_ok_parts c s1 "WaitForJobCompletion" [v1] [] (by decide)
      obtain ⟨st1, s3, lg3, hst⟩ :=
        proxyCall_ok_parts c s2 "GetJobStatus" [v1] [] (by decide)
      have hlg1 : lg1 = [.usingMethod fnName] := proxyCall_jobid_log c s fnName args kwargs v1 s1 lg1 j hp hq
      have hF := finish_eq_of_jobid c s fnName args kwargs v1 s1 lg1 j w1 st1 s2 s3
        lg2 lg3 hp hq hw hst
      rw [hF] at h1 h3 ⊢
      dsimp only at h1 h3 ⊢
      injection h1 with h1
      subst h1
      injection h3 with h3
      subst h3
      rw [h4, h2]
      refine ⟨rfl, ?_, ?_⟩
      · simp
      · rw [hlg1]
        simp

/-- Witness for C7: a client whose CreateInstance returns "42", whose wait
primitive reports failure and whose job status carries the payload "boom";
Finish returns None and the log holds the name and the payload. -/
theorem finish_wait_failure_returns_none_witness :
    (Finish clientFail () "CreateInstance" [] []).waitValue = Option.some (.bool false) ∧
    pyTruthy (.bool false) = false ∧
    (Finish clientFail () "CreateInstance" [] []).statusValue =
      Option.some (.dict [("opresult", .list [.str "boom"])]) ∧
    extractFirstOpresult (.dict [("opresult", .list [.str "boom"])]) = .ok (.str "boom") ∧
    ((Finish clientFail () "CreateInstance" [] []).result = .ok Value.none ∧
     LogEvent.opFailure (.str "boom") ∈ (Finish clientFail () "CreateInstance" [] []).log ∧
     LogEvent.usingMethod "CreateInstance" ∈ (Finish clientFail () "CreateInstance" [] []).log) :=
  ⟨rfl, rfl, rfl, rfl,
   finish_wait_failure_returns_none clientFail () "CreateInstance" [] []
     (.bool false) (.dict [("opresult", .list [.str "boom"])]) (.str "boom")
     rfl rfl rfl rfl⟩

/-- C10: when a job id was obtained but the proxied GetJobStatus call yielded
None (the operation being absent, or its forwarded call having raised a
GanetiApiError absorbed by the proxy), subscripting the None status raises a
TypeError that escapes Finish. -/
theorem finish_none_status_raises_typeerror {σ : Type} (c : RawClient σ) (s : σ)
    (fnName : String) (args : List Value) (kwargs : List (String × Value)) (j : Int)
    (h1 : (Finish c s fnName args kwargs).jobId = Option.some j)
    (h2 : (Finish c s fnName args kwargs).statusValue = Option.some Value.none) :
    (Finish c s fnName args kwargs).result = .error .typeError := by
  rcases hp : proxyCall c s fnName args kwargs with ⟨val, s1, lg1⟩
  cases val with
  | error e =>
    rw [finish_eq_of_error c s fnName args kwargs e s1 lg1 hp] at h2
    simp at h2
  | ok v1 =>
    cases hq : pyInt v1 with
    | error e1 =>
      rw [finish_eq_of_nonint c s fnName args kwargs v1 s1 lg1 e1 hp hq] at h2
      simp at h2
    | ok jj =>
      obtain ⟨w, s2, lg2, hw⟩ :=
        proxyCall_ok_parts c s1 "WaitForJobCompletion" [v1] [] (by decide)
      obtain ⟨st, s3, lg3, hst⟩ :=
        proxyCall_ok_parts c s2 "GetJobStatus" [v1] [] (by decide)
      have hF := finish_eq_of_jobid c s fnName args kwargs v1 s1 lg1 jj w st s2 s3
        lg2 lg3 hp hq hw hst
      rw [hF] at h2 ⊢
      dsimp only at h2 ⊢
      injection h2 with h2
      subst h2
      rfl

/-- Witness for C10: the client lacking GetJobStatus; the mock yields None
and Finish ends in a TypeError. -/
theorem finish_none_status_raises_typeerror_witness :
    (Finish clientNoStatus () "CreateInstance" [] []).jobId = Option.some 42 ∧
    (Finish clientNoStatus () "CreateInstance" [] []).statusValue = Option.some Value.none ∧
    (Finish clientNoStatus () "CreateInstance" [] []).result = .error .typeError :=
  ⟨rfl, rfl,
   finish_none_status_raises_typeerror clientNoStatus () "CreateInstance" [] [] 42
     rfl rfl⟩

/-- C4: for every operation name not starting with an underscore that the
wrapped client does not expose, attribute lookup on the wrapper yields
MockMethod with a log of the missing operation, and the resulting callable
accepts any positional and keyword arguments, leaves the cluster state
untouched, returns None and never raises. -/
theorem getattr_missing_yields_mock {σ : Type} (c : RawClient σ) (attr : String)
    (h0 : startsWithUnderscore attr = false)
    (h1 : findMethod c.methods attr = Option.none) :
    wrapperGetattr c attr = (.mock, [.missingMethod attr]) ∧
    ∀ (s : σ) (args : List Value) (kwargs : List (String × Value)),
      proxyCall c s attr args kwargs = ⟨.ok Value.none, s, [.missingMethod attr]⟩ := by
  have hg : wrapperGetattr c attr = (.mock, [.missingMethod attr]) := by
    unfold wrapperGetattr
    rw [h0]
    simp only [Bool.false_eq_true, if_false]
    rw [h1]
  refine ⟨hg, fun s args kwargs => ?_⟩
  unfold proxyCall
  rw [hg]

/-- Witness for C4: the empty client and the operation name GetVersion,
invoked with arbitrary positional and keyword arguments. -/
theorem getattr_missing_yields_mock_witness :
    startsWithUnderscore "GetVersion" = false ∧
    findMethod emptyClient.methods "GetVersion" = Option.none ∧
    wrapperGetattr emptyClient "GetVersion" = (.mock, [.missingMethod "GetVersion"]) ∧
    proxyCall emptyClient () "GetVersion" [.int 1] [("dry_run", .bool true)] =
      ⟨.ok Value.none, (), [.missingMethod "GetVersion"]⟩ :=
  ⟨rfl, rfl,
   (getattr_missing_yields_mock emptyClient "GetVersion" rfl rfl).1,
   (getattr_missing_yields_mock emptyClient "GetVersion" rfl rfl).2 ()
     [.int 1] [("dry_run", .bool true)]⟩

/-- C5: for every operation the wrapped client does expose, a forwarded call
that raises a GanetiApiError results in the error being caught and logged
with the operation name and detail, and the proxied callable returning None;
the exception does not propagate past the proxy. -/
theorem proxy_absorbs_api_error {σ : Type} (c : RawClient σ) (s : σ)
    (attr : String) (fn : MethodFn σ) (args : List Value)
    (kwargs : List (String × Value)) (msg : String) (s1 : σ)
    (h0 : startsWithUnderscore attr = false)
    (h1 : findMethod c.methods attr = Option.some fn)
    (h2 : fn s args kwargs = (.apiError msg, s1)) :
    proxyCall c s attr args kwargs =
      ⟨.ok Value.none, s1, [.usingMethod attr, .rapiError attr msg]⟩ := by
  unfold proxyCall wrapperGetattr
  rw [h0]
  simp only [Bool.false_eq_true, if_false]
  rw [h1]
  dsimp only
  rw [h2]
  rfl

/-- Witness for C5: a client whose StartupInstance raises a GanetiApiError;
the proxied call returns None and logs the name and detail. -/
theorem proxy_absorbs_api_error_witness :
    startsWithUnderscore "StartupInstance" = false ∧
    findMethod clientRaise.methods "StartupInstance" = Option.some startupRaiseFn ∧
    startupRaiseFn () [] [] = (.apiError "rejected by server", ()) ∧
    proxyCall clientRaise () "StartupInstance" [] [] =
      ⟨.ok Value.none, (),
       [.usingMethod "StartupInstance", .rapiError "StartupInstance" "rejected by server"]⟩ :=
  ⟨rfl, rfl, rfl,
   proxy_absorbs_api_error clientRaise () "StartupInstance" startupRaiseFn [] []
     "rejected by server" () rfl rfl rfl⟩

/-- C9: invoked with fewer than two argv entries, Main writes the usage
message but does not exit or return early, and the subsequent evaluation of
sys.argv~1 raises IndexError, so the no-argument case never terminates
cleanly after the usage message. -/
theorem main_no_args_usage_then_indexerror (argv : List String)
    (h : argv.length < 2) :
    (MainArgvCheck argv).stderr = [usageMessage] ∧
    (MainArgvCheck argv).result = .error .indexError := by
  have h2 : argv.get? 1 = Option.none := by
    rw [List.get?_eq_none]
    omega
  unfold MainArgvCheck
  rw [h2]
  dsimp only
  rw [if_pos h]
  exact ⟨rfl, rfl⟩

/-- Witness for C9: an argv holding only the script name. -/
theorem main_no_args_usage_then_indexerror_witness :
    (["rapi-workload.py"] : List String).length < 2 ∧
    ((MainArgvCheck ["rapi-workload.py"]).stderr = [usageMessage] ∧
     (MainArgvCheck ["rapi-workload.py"]).result = .error .indexError) :=
  ⟨by decide, main_no_args_usage_then_indexerror ["rapi-workload.py"] (by decide)⟩

lemma finish_calls_shape {σ : Type} (c : RawClient σ) (s : σ) (fnName : String)
    (args : List Value) (kwargs : List (String × Value)) :
    (Finish c s fnName args kwargs).calls = [⟨fnName, args, kwargs⟩] ∨
    ∃ v, (Finish c s fnName args kwargs).calls =
      [⟨fnName, args, kwargs⟩, ⟨"WaitForJobCompletion", [v], []⟩,
       ⟨"GetJobStatus", [v], []⟩] := by
  rcases hp : proxyCall c s fnName args kwargs with ⟨val, s1, lg1⟩
  cases val with
  | error e =>
    left
    rw [finish_eq_of_error c s fnName args kwargs e s1 lg1 hp]
  | ok v1 =>
    cases hq : pyInt v1 with
    | error e1 =>
      left
      rw [finish_eq_of_nonint c s fnName args kwargs v1 s1 lg1 e1 hp hq]
    | ok j =>
      obtain ⟨w, s2, lg2, hw⟩ :=
        proxyCall_ok_parts c s1 "WaitForJobCompletion" [v1] [] (by decide)
      obtain ⟨st, s3, lg3, hst⟩ :=
        proxyCall_ok_parts c s2 "GetJobStatus" [v1] [] (by decide)
      right
      exact ⟨v1, by
        rw [finish_eq_of_jobid c s fnName args kwargs v1 s1 lg1 j w st s2 s3
          lg2 lg3 hp hq hw hst]⟩

lemma finish_filter {σ : Type} (c : RawClient σ) (s : σ) (fnName : String)
    (args : List Value) (kwargs : List (String × Value)) (name : String)
    (hW : name ≠ "WaitForJobCompletion") (hS : name ≠ "GetJobStatus") :
    (Finish c s fnName args kwargs).calls.filter (fun r => r.name == name) =
      if fnName = name then [(⟨fnName, args, kwargs⟩ : CallRecord)] else [] := by
  rcases finish_calls_shape c s fnName args kwargs with h | ⟨v, h⟩
  · rw [h]
    by_cases hf : fnName = name
    · have hb : (fnName == name) = true := beq_iff_eq.mpr hf
      simp [List.filter, hb, hf]
    · have hb : (fnName == name) = false := beq_eq_false_iff_ne.mpr hf
      simp [List.filter, hb, hf]
  · rw [h]
    have hbW : (("WaitForJobCompletion" : String) == name) = false :=
      beq_eq_false_iff_ne.mpr (Ne.symm hW)
    have hbS : (("GetJobStatus" : String) == name) = false :=
      beq_eq_false_iff_ne.mpr (Ne.symm hS)
    by_cases hf : fnName = name
    · have hb : (fnName == name) = true := beq_iff_eq.mpr hf
      simp [List.filter, hb, hbW, hbS, hf]
    · have hb : (fnName == name) = false := beq_eq_false_iff_ne.mpr hf
      simp [List.filter, hb, hbW, hbS, hf]

/-- C3 (amended): in one full run of TestTags, the get operation is invoked
exactly four times, the add operation exactly twice (once dry-run, once real,
both over all three fixed tags), and the delete operation exactly three times
(once dry-run over the first tag, once real over the first tag, once real
over the remaining two tags, the real deletions covering distinct subsets
that together exhaust the three fixed tags). -/
theorem testTags_call_counts {σ : Type} (c : RawClient σ) (s : σ)
    (getName addName delName : String) (args : List Value)
    (h1 : getName ≠ addName) (h2 : getName ≠ delName) (h3 : addName ≠ delName)
    (hg1 : getName ≠ "WaitForJobCompletion") (hg2 : getName ≠ "GetJobStatus")
    (ha1 : addName ≠ "WaitForJobCompletion") (ha2 : addName ≠ "GetJobStatus")
    (hd1 : delName ≠ "WaitForJobCompletion") (hd2 : delName ≠ "GetJobStatus") :
    countCalls (TestTags c s getName addName delName args).calls getName = 4 ∧
    countCalls (TestTags c s getName addName delName args).calls addName = 2 ∧
    countCalls (TestTags c s getName addName delName args).calls delName = 3 ∧
    (TestTags c s getName addName delName args).calls.filter
        (fun r => r.name == addName) =
      [⟨addName, args, [("tags", tagsValue), ("dry_run", .bool true)]⟩,
       ⟨addName, args, [("tags", tagsValue)]⟩] ∧
    (TestTags c s getName addName delName args).calls.filter
        (fun r => r.name == delName) =
      [⟨delName, args, [("tags", tagsFirst), ("dry_run", .bool true)]⟩,
       ⟨delName, args, [("tags", tagsFirst)]⟩,
       ⟨delName, args, [("tags", tagsRest)]⟩] := by
  have b1 : (getName == addName) = false := beq_eq_false_iff_ne.mpr h1
  have b2 : (getName == delName) = false := beq_eq_false_iff_ne.mpr h2
  have bg : (getName == getName) = true := beq_self_eq_true getName
  refine ⟨?_, ?_, ?_, ?_, ?_⟩ <;>
    simp [TestTags, countCalls, List.filter_append, List.filter_cons,
      List.filter_nil, finish_filter, b1, b2, bg, h1, h2, h3, Ne.symm h1,
      Ne.symm h2, Ne.symm h3, hg1, hg2, ha1, ha2, hd1, hd2, List.length_append]

/-- Counterexample for C3 as stated: on a concrete full run of TestTags (the
cluster-scope tagging of the workload, against a client exposing nothing),
the get operation is invoked four times, not five, and the delete operation
three times, not two. -/
theorem testTags_claimed_counts_false :
    ¬ (countCalls (TestTags emptyClient () "GetClusterTags" "AddClusterTags"
          "DeleteClusterTags" []).calls "GetClusterTags" = 5 ∧
       countCalls (TestTags emptyClient () "GetClusterTags" "AddClusterTags"
          "DeleteClusterTags" []).calls "AddClusterTags" = 2 ∧
       countCalls (TestTags emptyClient () "GetClusterTags" "AddClusterTags"
          "DeleteClusterTags" []).calls "DeleteClusterTags" = 2) := by
  decide

/-- Witness for the amended C3 at the concrete cluster-scope instantiation. -/
theorem testTags_call_counts_witness :
    countCalls (TestTags emptyClient () "GetClusterTags" "AddClusterTags"
        "DeleteClusterTags" []).calls "GetClusterTags" = 4 ∧
    countCalls (TestTags emptyClient () "GetClusterTags" "AddClusterTags"
        "DeleteClusterTags" []).calls "AddClusterTags" = 2 ∧
    countCalls (TestTags emptyClient () "GetClusterTags" "AddClusterTags"
        "DeleteClusterTags" []).calls "DeleteClusterTags" = 3 :=
  have h := testTags_call_counts emptyClient () "GetClusterTags" "AddClusterTags"
    "DeleteClusterTags" [] (by decide) (by decide) (by decide) (by decide)
    (by decide) (by decide) (by decide) (by decide) (by decide)
  ⟨h.1, h.2.1, h.2.2.1⟩

lemma finish_delete_simple (l2 : List String) (nm : String) :
    Finish simpleCluster l2 "DeleteInstance" [.str nm] [] =
      { fnValue := .ok (.int 123), jobId := Option.some 123,
        waitValue := Option.some (.bool true),
        statusValue := Option.some (.dict [("opresult", .list [.str "deleted"])]),
        result := .ok (.str "deleted"),
        state := l2.filter (fun x => !(x == nm)),
        log := [.usingMethod "DeleteInstance", .usingMethod "WaitForJobCompletion",
                .usingMethod "GetJobStatus"],
        calls := [⟨"DeleteInstance", [.str nm], []⟩,
                  ⟨"WaitForJobCompletion", [.int 123], []⟩,
                  ⟨"GetJobStatus", [.int 123], []⟩],
        waitCalls := 1, statusCalls := 1 } := rfl

lemma deleteLoop_simple (l1 : List String) : ∀ l2 : List String,
    (deleteLoop simpleCluster l2 (l1.map Value.str)).err = Option.none ∧
    (deleteLoop simpleCluster l2 (l1.map Value.str)).state =
      l1.foldl (fun acc nm => acc.filter (fun x => !(x == nm))) l2 := by
  induction l1 with
  | nil => exact fun l2 => ⟨rfl, rfl⟩
  | cons nm rest ih =>
    intro l2
    simp only [List.map_cons, deleteLoop, finish_delete_simple]
    exact ⟨(ih (l2.filter (fun x => !(x == nm)))).1,
           (ih (l2.filter (fun x => !(x == nm)))).2⟩

lemma foldl_filter_contains (l1 : List String) : ∀ l2 : List String,
    l1.foldl (fun acc nm => acc.filter (fun x => !(x == nm))) l2 =
      l2.filter (fun x => !(l1.contains x)) := by
  induction l1 with
  | nil => intro l2; simp
  | cons nm rest ih =>
    intro l2
    rw [List.foldl_cons, ih, List.filter_filter]
    congr 1
    funext x
    cases hx : x == nm <;> cases hr : rest.contains x <;>
      simp only [List.contains_cons, hx, hr] <;> rfl

lemma filter_not_contains_self (l : List String) :
    l.filter (fun x => !(l.contains x)) = [] := by
  rw [List.filter_eq_nil_iff]
  intro a ha
  simp [List.elem_eq_mem, ha]

/-- C8: RemoveAllInstances enumerates all current instances, deletes each via
Finish, and the final assertion that the re-enumerated instance set is empty
holds, for every initial instance list of the single-writer cluster on which
each deletion succeeds. -/
theorem removeAllInstances_assertion_holds (l : List String) :
    (RemoveAllInstances simpleCluster l).result = .ok () ∧
    (RemoveAllInstances simpleCluster l).finalList = Option.some (.list []) ∧
    (RemoveAllInstances simpleCluster l).state = [] := by
  have hget : ∀ s : List String, proxyCall simpleCluster s "GetInstances" [] [] =
      ⟨.ok (.list (s.map Value.str)), s, [.usingMethod "GetInstances"]⟩ :=
    fun s => rfl
  have hloop := deleteLoop_simple l l
  have hstate : (deleteLoop simpleCluster l (l.map Value.str)).state = [] := by
    rw [hloop.2, foldl_filter_contains, filter_not_contains_self]
  unfold RemoveAllInstances
  rw [hget l]
  dsimp only [pyIter]
  rw [hloop.1]
  dsimp only
  rw [hstate]
  rw [hget []]
  simp [pyLen]
